import Mathlib

/-!
Verification of the notion-mcp repository's natural-language specification
against a shallow embedding of its three Python source files:

  * `src/notion_mcp/models/notion.py` — pydantic data models, rich-text and
    block markdown renderers;
  * `src/notion_mcp/client.py` — the `NotionClient` transport operations;
  * `src/notion_mcp/server.py` — the `call_tool` dispatch layer.

Python JSON values are embedded as the inductive `Json` (integers stand in
for all Python numbers; `null` plays the role of Python's `None`).  Code
that can raise returns `Except PyExn _`, with a constructor per Python
exception class the sources can raise.  Async methods are embedded as pure
functions over an explicit `Transport` (the `httpx` round-trip), and each
client method is instrumented to also return the list of HTTP requests it
sends, so single-request / no-retry properties are expressible.
-/

set_option maxRecDepth 10000
set_option maxHeartbeats 2000000

namespace NotionSpec

/-- Embedded JSON value (also used for arbitrary Python values flowing
through the untyped parts of the code; Python `None` is `.null`). -/
inductive Json where
  | null
  | bool (b : Bool)
  | num (n : Int)
  | str (s : String)
  | arr (elems : List Json)
  | obj (fields : List (String × Json))
deriving Inhabited

/-- The Python exception classes the embedded code can raise.  Only the
`valueError` message texts are relied on by any theorem; the other payloads
are coarse stand-ins for the exception objects. -/
inductive PyExn where
  | valueError (msg : String)
  | keyError (key : String)
  | attributeError
  | typeError
  | validationError
  | httpStatusError (status : Int) (body : Json)
  | transportError (msg : String)
deriving Inhabited

/-- Association-list lookup on an embedded JSON object / Python dict
(first binding wins, as in a Python dict, whose keys are unique). -/
def jLookup : List (String × Json) → String → Option Json
  | [], _ => none
  | (k, v) :: rest, key => if k = key then some v else jLookup rest key

/-- Python truthiness of an embedded value (`bool(x)`). -/
def pyTruthy : Json → Bool
  | .null => false
  | .bool b => b
  | .num n => n ≠ 0
  | .str s => s ≠ ""
  | .arr l => !l.isEmpty
  | .obj l => !l.isEmpty

/-- Python `x.get(key, default)`: total on dicts, `AttributeError` on any
other receiver.  A stored `None` is returned as such (the default applies
only to a missing key), as in Python. -/
def pyGetJ (j : Json) (key : String) (dflt : Json) : Except PyExn Json :=
  match j with
  | .obj l => .ok ((jLookup l key).getD dflt)
  | _ => .error .attributeError

/-- Python `x[key]` subscription: `KeyError` on a missing key,
`TypeError` on a non-dict receiver. -/
def pyGetItemJ (j : Json) (key : String) : Except PyExn Json :=
  match j with
  | .obj l =>
      match jLookup l key with
      | some v => .ok v
      | none => .error (.keyError key)
  | _ => .error .typeError

/-- Python `d[key] = v` on a dict: replaces the value in place if the key
exists, otherwise appends the new binding at the end (dict insertion
order). -/
def pySetItem : List (String × Json) → String → Json → List (String × Json)
  | [], key, v => [(key, v)]
  | (k, w) :: rest, key, v =>
      if k = key then (k, v) :: rest else (k, w) :: pySetItem rest key v

/-- Python iteration `for x in j`: lists yield their elements, strings
their characters, dicts their keys; other values raise `TypeError`. -/
def pyIter (j : Json) : Except PyExn (List Json) :=
  match j with
  | .arr l => .ok l
  | .str s => .ok (s.toList.map fun c => .str c.toString)
  | .obj l => .ok (l.map fun kv => .str kv.1)
  | _ => .error .typeError

mutual
/-- Python `repr()` of an embedded value (string payloads are not escaped;
no theorem depends on the rendering of nested structures). -/
def pyRepr : Json → String
  | .null => "None"
  | .bool true => "True"
  | .bool false => "False"
  | .num n => toString n
  | .str s => "\x27" ++ s ++ "\x27"
  | .arr l => "[" ++ pyReprList l ++ "]"
  | .obj l => "\x7b" ++ pyReprObj l ++ "\x7d"

/-- Comma-separated `repr` of list elements. -/
def pyReprList : List Json → String
  | [] => ""
  | [x] => pyRepr x
  | x :: xs => pyRepr x ++ ", " ++ pyReprList xs

/-- Comma-separated `repr` of dict entries. -/
def pyReprObj : List (String × Json) → String
  | [] => ""
  | [(k, v)] => "\x27" ++ k ++ "\x27" ++ ": " ++ pyRepr v
  | (k, v) :: xs =>
      "\x27" ++ k ++ "\x27" ++ ": " ++ pyRepr v ++ ", " ++ pyReprObj xs
end

/-- Python `str()` / f-string interpolation of an embedded value. -/
def pyStr (j : Json) : String :=
  match j with
  | .str s => s
  | _ => pyRepr j

/-- The `str(e)` for an embedded exception.  Faithful for `ValueError` (whose
message is what the server-level theorems inspect); a coarse stand-in for
the library-generated exception texts, which no claim inspects. -/
def pyExnStr : PyExn → String
  | .valueError msg => msg
  | .keyError key => "\x27" ++ key ++ "\x27"
  | .attributeError => "AttributeError"
  | .typeError => "TypeError"
  | .validationError => "validation error"
  | .httpStatusError status _ => "HTTP status error " ++ toString status
  | .transportError msg => msg

/-- Does `sub` start `l`? -/
def charsHavePrefix : List Char → List Char → Bool
  | _, [] => true
  | [], _ :: _ => false
  | c :: cs, d :: ds => c == d && charsHavePrefix cs ds

/-- Does `sub` occur contiguously anywhere in `l`? -/
def charsContain (l sub : List Char) : Bool :=
  match l with
  | [] => sub.isEmpty
  | _ :: rest => charsHavePrefix l sub || charsContain rest sub

/-- Substring test (`sub in s` for Python strings). -/
def containsSubstr (s sub : String) : Bool :=
  charsContain s.toList sub.toList

/-- Python `x == "literal"` for an arbitrary value: true only when `x` is
that string (comparisons between different types are `False`, never an
error). -/
def jsonEqStr (j : Json) (s : String) : Bool :=
  match j with
  | .str t => t = s
  | _ => false

/-! ## models/notion.py — pydantic models

Each pydantic model becomes a structure, and `Model(**json)` becomes a
`decode…` function returning `Except PyExn _` (`.validationError` standing
in for `pydantic.ValidationError`).  Pydantic's `datetime` fields are kept
as their raw strings (no claim concerns timestamp parsing); numeric fields
are embedded over `Int`. -/

/-- The `RichText` (models/notion.py): `type` and `text` required, the rest
optional. -/
structure RichText where
  type : String
  text : List (String × Json)
  annotations : Option (List (String × Json)) := none
  plain_text : Option String := none
  href : Option String := none

/-- The `PropertyValue` (models/notion.py): `id` and `type` required; every
variant field is independently optional, with no constraint tying the
populated field to `type`. -/
structure PropertyValue where
  id : String
  type : String
  title : Option (List RichText) := none
  rich_text : Option (List RichText) := none
  select : Option (List (String × Json)) := none
  multi_select : Option (List (List (String × Json))) := none
  url : Option String := none
  checkbox : Option Bool := none
  number : Option Int := none
  date : Option (List (String × Json)) := none

/-- The `DatabaseProperty` (models/notion.py). -/
structure DatabaseProperty where
  id : String
  name : String
  type : String

/-- The `Page` (models/notion.py), including the `NotionObject` base fields. -/
structure Page where
  object : String
  id : String
  created_time : String
  last_edited_time : Option String := none
  url : Option String := none
  public_url : Option String := none
  parent : List (String × Json)
  archived : Bool := false
  properties : List (String × PropertyValue)

/-- The `Database` (models/notion.py), including the `NotionObject` base
fields. -/
structure Database where
  object : String
  id : String
  created_time : String
  last_edited_time : Option String := none
  url : Option String := none
  public_url : Option String := none
  title : List RichText
  description : List RichText := []
  properties : List (String × DatabaseProperty)
  archived : Bool := false

/-- One element of `SearchResults.results` (`Union[Database, Page]`). -/
inductive SearchResult where
  | database (d : Database)
  | page (p : Page)

/-- The `SearchResults` (models/notion.py). -/
structure SearchResults where
  object : String := "list"
  results : List SearchResult
  next_cursor : Option String := none
  has_more : Bool := false

/-- Required string field of a pydantic model. -/
def reqStr (l : List (String × Json)) (k : String) : Except PyExn String :=
  match jLookup l k with
  | some (.str s) => .ok s
  | _ => .error .validationError

/-- The `Optional[str]` field: absent or `null` decodes to `none`. -/
def optStr (l : List (String × Json)) (k : String) :
    Except PyExn (Option String) :=
  match jLookup l k with
  | none => .ok none
  | some .null => .ok none
  | some (.str s) => .ok (some s)
  | some _ => .error .validationError

/-- The `Optional[Dict[str, Any]]` field. -/
def optDict (l : List (String × Json)) (k : String) :
    Except PyExn (Option (List (String × Json))) :=
  match jLookup l k with
  | none => .ok none
  | some .null => .ok none
  | some (.obj d) => .ok (some d)
  | some _ => .error .validationError

/-- The `Optional[bool]` field. -/
def optBool (l : List (String × Json)) (k : String) :
    Except PyExn (Option Bool) :=
  match jLookup l k with
  | none => .ok none
  | some .null => .ok none
  | some (.bool b) => .ok (some b)
  | some _ => .error .validationError

/-- The `Optional[float]` field (embedded over `Int`). -/
def optNum (l : List (String × Json)) (k : String) :
    Except PyExn (Option Int) :=
  match jLookup l k with
  | none => .ok none
  | some .null => .ok none
  | some (.num n) => .ok (some n)
  | some _ => .error .validationError

/-- The `bool` field with a declared default (absent uses the default; an
explicit `null` is not a valid `bool`). -/
def boolD (l : List (String × Json)) (k : String) (d : Bool) :
    Except PyExn Bool :=
  match jLookup l k with
  | none => .ok d
  | some (.bool b) => .ok b
  | some _ => .error .validationError

/-- Required `Dict[str, Any]` field. -/
def reqDict (l : List (String × Json)) (k : String) :
    Except PyExn (List (String × Json)) :=
  match jLookup l k with
  | some (.obj d) => .ok d
  | _ => .error .validationError

/-- The `RichText(**json)`. -/
def decodeRichText (j : Json) : Except PyExn RichText :=
  match j with
  | .obj l => do
      let ty ← reqStr l "type"
      let tx ← reqDict l "text"
      let anns ← optDict l "annotations"
      let pt ← optStr l "plain_text"
      let h ← optStr l "href"
      pure { type := ty, text := tx, annotations := anns, plain_text := pt,
             href := h }
  | _ => .error .validationError

/-- The `Optional[List[RichText]]` field. -/
def optRichTextList (l : List (String × Json)) (k : String) :
    Except PyExn (Option (List RichText)) :=
  match jLookup l k with
  | none => .ok none
  | some .null => .ok none
  | some (.arr xs) => do
      let rts ← xs.mapM decodeRichText
      pure (some rts)
  | some _ => .error .validationError

/-- Required `List[RichText]` field. -/
def reqRichTextList (l : List (String × Json)) (k : String) :
    Except PyExn (List RichText) :=
  match jLookup l k with
  | some (.arr xs) => xs.mapM decodeRichText
  | _ => .error .validationError

/-- The `List[RichText]` field with default `[]` (absent uses the default; an
explicit `null` is not a valid list). -/
def richTextListD (l : List (String × Json)) (k : String) :
    Except PyExn (List RichText) :=
  match jLookup l k with
  | none => .ok []
  | some (.arr xs) => xs.mapM decodeRichText
  | some _ => .error .validationError

/-- The `Optional[List[Dict[str, Any]]]` field. -/
def optDictList (l : List (String × Json)) (k : String) :
    Except PyExn (Option (List (List (String × Json)))) :=
  match jLookup l k with
  | none => .ok none
  | some .null => .ok none
  | some (.arr xs) => do
      let ds ← xs.mapM (fun x =>
        match x with
        | .obj d => .ok d
        | _ => .error PyExn.validationError)
      pure (some ds)
  | some _ => .error .validationError

/-- The `PropertyValue(**json)`: only `id` and `type` are required; each
variant field is decoded independently when present; no cross-check
between `type` and the populated fields is performed. -/
def decodePropertyValue (j : Json) : Except PyExn PropertyValue :=
  match j with
  | .obj l => do
      let i ← reqStr l "id"
      let ty ← reqStr l "type"
      let t ← optRichTextList l "title"
      let rt ← optRichTextList l "rich_text"
      let sel ← optDict l "select"
      let ms ← optDictList l "multi_select"
      let u ← optStr l "url"
      let cb ← optBool l "checkbox"
      let n ← optNum l "number"
      let dt ← optDict l "date"
      pure { id := i, type := ty, title := t, rich_text := rt, select := sel,
             multi_select := ms, url := u, checkbox := cb, number := n,
             date := dt }
  | _ => .error .validationError

/-- The `DatabaseProperty(**json)`. -/
def decodeDatabaseProperty (j : Json) : Except PyExn DatabaseProperty :=
  match j with
  | .obj l => do
      let i ← reqStr l "id"
      let nm ← reqStr l "name"
      let ty ← reqStr l "type"
      pure { id := i, name := nm, type := ty }
  | _ => .error .validationError

/-- The `Dict[str, PropertyValue]` field of `Page`. -/
def reqPropertyValueMap (l : List (String × Json)) (k : String) :
    Except PyExn (List (String × PropertyValue)) :=
  match jLookup l k with
  | some (.obj entries) =>
      entries.mapM (fun kv => do
        let v ← decodePropertyValue kv.2
        pure (kv.1, v))
  | _ => .error .validationError

/-- The `Dict[str, DatabaseProperty]` field of `Database`. -/
def reqDatabasePropertyMap (l : List (String × Json)) (k : String) :
    Except PyExn (List (String × DatabaseProperty)) :=
  match jLookup l k with
  | some (.obj entries) =>
      entries.mapM (fun kv => do
        let v ← decodeDatabaseProperty kv.2
        pure (kv.1, v))
  | _ => .error .validationError

/-- The `Page(**json)`. -/
def decodePage (j : Json) : Except PyExn Page :=
  match j with
  | .obj l => do
      let ob ← reqStr l "object"
      let i ← reqStr l "id"
      let ct ← reqStr l "created_time"
      let lt ← optStr l "last_edited_time"
      let u ← optStr l "url"
      let pu ← optStr l "public_url"
      let par ← reqDict l "parent"
      let ar ← boolD l "archived" false
      let props ← reqPropertyValueMap l "properties"
      pure { object := ob, id := i, created_time := ct,
             last_edited_time := lt, url := u, public_url := pu,
             parent := par, archived := ar, properties := props }
  | _ => .error .validationError

/-- The `Database(**json)`. -/
def decodeDatabase (j : Json) : Except PyExn Database :=
  match j with
  | .obj l => do
      let ob ← reqStr l "object"
      let i ← reqStr l "id"
      let ct ← reqStr l "created_time"
      let lt ← optStr l "last_edited_time"
      let u ← optStr l "url"
      let pu ← optStr l "public_url"
      let t ← reqRichTextList l "title"
      let d ← richTextListD l "description"
      let props ← reqDatabasePropertyMap l "properties"
      let ar ← boolD l "archived" false
      pure { object := ob, id := i, created_time := ct,
             last_edited_time := lt, url := u, public_url := pu,
             title := t, description := d, properties := props,
             archived := ar }
  | _ => .error .validationError

/-! ## models/notion.py — markdown renderers

`rich_text_to_markdown` and `block_to_markdown` work on raw JSON values
(Python dicts), so they are embedded over `Json`, with every Python
operation that can raise (`.get` on a non-dict, iteration over a
non-iterable, `str + non-str`) returning `.error`. -/

/-- The body of the `for rt in rich_text_list` loop of
`rich_text_to_markdown`: extracts `text.content`, applies the markers for
each truthy annotation flag in source order (bold first, i.e. innermost;
then italic, strikethrough, code, and the link wrapper outermost), and
requires the final value to be a string (`markdown += text`). -/
def renderRun (rt : Json) : Except PyExn String := do
  let textObj ← pyGetJ rt "text" (.obj [])
  let content ← pyGetJ textObj "content" (.str "")
  let anns ← pyGetJ rt "annotations" (.obj [])
  let bold ← pyGetJ anns "bold" .null
  let italic ← pyGetJ anns "italic" .null
  let strike ← pyGetJ anns "strikethrough" .null
  let codeFlag ← pyGetJ anns "code" .null
  let hrefVal ← pyGetJ rt "href" .null
  let t1 : Json :=
    if pyTruthy bold then .str ("**" ++ pyStr content ++ "**") else content
  let t2 : Json :=
    if pyTruthy italic then .str ("*" ++ pyStr t1 ++ "*") else t1
  let t3 : Json :=
    if pyTruthy strike then .str ("~~" ++ pyStr t2 ++ "~~") else t2
  let t4 : Json :=
    if pyTruthy codeFlag then .str ("`" ++ pyStr t3 ++ "`") else t3
  let t5 : Json :=
    if pyTruthy hrefVal then
      .str ("[" ++ pyStr t4 ++ "](" ++ pyStr hrefVal ++ ")")
    else t4
  match t5 with
  | .str s => .ok s
  | _ => .error .typeError

/-- The marker-application tail of `renderRun`, abstracted over the
values the run's lookups produced (used to state how the output depends
on the annotations map only through its lookups). -/
def renderRunFlags (content bold italic strike codeFlag hrefVal : Json) :
    Except PyExn String :=
  let t1 : Json :=
    if pyTruthy bold then .str ("**" ++ pyStr content ++ "**") else content
  let t2 : Json :=
    if pyTruthy italic then .str ("*" ++ pyStr t1 ++ "*") else t1
  let t3 : Json :=
    if pyTruthy strike then .str ("~~" ++ pyStr t2 ++ "~~") else t2
  let t4 : Json :=
    if pyTruthy codeFlag then .str ("`" ++ pyStr t3 ++ "`") else t3
  let t5 : Json :=
    if pyTruthy hrefVal then
      .str ("[" ++ pyStr t4 ++ "](" ++ pyStr hrefVal ++ ")")
    else t4
  match t5 with
  | .str s => .ok s
  | _ => .error .typeError

/-- The `rich_text_to_markdown` (models/notion.py): renders each run in order
and concatenates. -/
def richTextToMarkdown (j : Json) : Except PyExn String := do
  let items ← pyIter j
  items.foldlM (fun acc rt => do
    let s ← renderRun rt
    pure (acc ++ s)) ""

/-- The `block_to_markdown` (models/notion.py): returns `""` for a falsy
`type`; otherwise extracts the payload under the `type` key, renders its
`rich_text`, and dispatches on the recognized block kinds with the
`text\n\n` fallback for everything else. -/
def blockToMarkdown (block : Json) : Except PyExn String := do
  let bt ← pyGetJ block "type" .null
  if !pyTruthy bt then
    pure ""
  else do
    let content ←
      match bt with
      | .str s => pyGetJ block s (.obj [])
      | _ => pure (Json.obj [])
    let rtj ← pyGetJ content "rich_text" (.arr [])
    let text ← richTextToMarkdown rtj
    match bt with
    | .str "paragraph" => pure (text ++ "\n\n")
    | .str "heading_1" => pure ("# " ++ text ++ "\n\n")
    | .str "heading_2" => pure ("## " ++ text ++ "\n\n")
    | .str "heading_3" => pure ("### " ++ text ++ "\n\n")
    | .str "bulleted_list_item" => pure ("* " ++ text ++ "\n")
    | .str "numbered_list_item" => pure ("1. " ++ text ++ "\n")
    | .str "to_do" => do
        let checked ← pyGetJ content "checked" (.bool false)
        pure ((if pyTruthy checked then "[x]" else "[ ]") ++ " " ++ text
          ++ "\n")
    | .str "code" => do
        let lang ← pyGetJ content "language" (.str "")
        pure ("```" ++ pyStr lang ++ "\n" ++ text ++ "\n```" ++ "\n\n")
    | .str "quote" => pure ("> " ++ text ++ "\n\n")
    | .str "divider" => pure "---\n\n"
    | _ => pure (text ++ "\n\n")

/-! ## client.py — `NotionClient`

Every client method builds one HTTP request, sends it, calls
`response.raise_for_status()` (httpx: raises for any non-2xx status), and
decodes the body.  Each method is embedded as a pure request builder plus
the generic runner `runClientOp`, which also returns the list of requests
issued (each method's body sends exactly one).

Parameter types follow the Python signatures: identifiers interpolated
into the URL by an f-string (or first passed through `.replace("-", "")`)
are `String`; values only embedded into the request body are `Json`, with
`.null` playing `None` for the optional ones. -/

/-- An HTTP request as built by a client method. -/
structure Request where
  method : String
  url : String
  body : Option Json := none
  params : Option Json := none

/-- An HTTP response (`status_code` plus the parsed JSON body). -/
structure Response where
  status : Int
  body : Json

/-- The httpx round-trip: network failures are `.error`. -/
def Transport : Type := Request → Except PyExn Response

/-- The `NotionClient.base_url`. -/
def baseUrl : String := "https://api.notion.com/v1"

/-- httpx `response.is_success`: a 2xx status. -/
def is2xx (s : Int) : Bool := 200 ≤ s && s < 300

/-- httpx `response.raise_for_status()`: `HTTPStatusError` carrying the
status and body for any non-2xx response. -/
def raiseForStatus (r : Response) : Except PyExn Response :=
  if is2xx r.status then .ok r else .error (.httpStatusError r.status r.body)

/-- Identifier normalization: `x.replace("-", "")` — for this single-
character pattern, exactly the removal of every dash. -/
def stripDashes (s : String) : String :=
  String.mk (s.toList.filter fun c => c ≠ '-')

/-- The `[(k, v)]` when `v` is truthy, else `[]` (the `if v: body[k] = v`
idiom). -/
def fieldIfTruthy (k : String) (v : Json) : List (String × Json) :=
  if pyTruthy v then [(k, v)] else []

/-- The `[(k, v)]` when `v` is not `None`, else `[]` (the
`if v is not None: body[k] = v` idiom). -/
def fieldIfNotNone (k : String) (v : Json) : List (String × Json) :=
  match v with
  | .null => []
  | _ => [(k, v)]

/-- The `list_databases`: POST /search with the fixed database filter. -/
def listDatabasesRequest : Request :=
  { method := "POST", url := baseUrl ++ "/search",
    body := some (.obj [
      ("filter", .obj [("property", .str "object"), ("value", .str "database")]),
      ("page_size", .num 100),
      ("sort", .obj [("direction", .str "descending"),
                     ("timestamp", .str "last_edited_time")])]) }

/-- The `query_database`: POST /databases/{database_id}/query; the identifier
is interpolated as given (no dash stripping); optional fields included
only when truthy. -/
def queryDatabaseRequest (databaseId : String)
    (filter sorts startCursor : Json) (pageSize : Int) : Request :=
  { method := "POST",
    url := baseUrl ++ "/databases/" ++ databaseId ++ "/query",
    body := some (.obj ([("page_size", Json.num pageSize)]
      ++ fieldIfTruthy "filter" filter
      ++ fieldIfTruthy "sorts" sorts
      ++ fieldIfTruthy "start_cursor" startCursor)) }

/-- The `create_page`: POST /pages; the parent id is embedded in the body (not
the URL) as given. -/
def createPageRequest (parentId properties children : Json) : Request :=
  { method := "POST", url := baseUrl ++ "/pages",
    body := some (.obj ([
      ("parent", .obj [("database_id", parentId)]),
      ("properties", properties)]
      ++ fieldIfTruthy "children" children)) }

/-- The `update_page`: PATCH /pages/{page_id}; the identifier is interpolated
as given (no dash stripping); `archived` included only when not `None`. -/
def updatePageRequest (pageId : String) (properties archived : Json) :
    Request :=
  { method := "PATCH", url := baseUrl ++ "/pages/" ++ pageId,
    body := some (.obj ([("properties", properties)]
      ++ fieldIfNotNone "archived" archived)) }

/-- The `create_database` body construction: strips dashes from the parent id;
an icon of `type` `"emoji"` with a falsy `emoji` value gets the default
glyph written into it before being attached; any other truthy icon is
attached unchanged; a truthy cover is attached unchanged. -/
def createDatabaseBody (parentId : String) (title properties : Json)
    (icon : Option (List (String × Json))) (cover : Json) : Json :=
  let base : List (String × Json) := [
    ("parent", .obj [("type", .str "page_id"),
                     ("page_id", .str (stripDashes parentId))]),
    ("title", title),
    ("properties", properties)]
  let withIcon :=
    match icon with
    | some ic =>
        if !ic.isEmpty
            && jsonEqStr ((jLookup ic "type").getD .null) "emoji"
            && !pyTruthy ((jLookup ic "emoji").getD .null) then
          base ++ [("icon", .obj (pySetItem ic "emoji" (.str "📄")))]
        else if !ic.isEmpty then
          base ++ [("icon", .obj ic)]
        else base
    | none => base
  .obj (withIcon ++ fieldIfTruthy "cover" cover)

/-- The `create_database`: POST /databases. -/
def createDatabaseRequest (parentId : String) (title properties : Json)
    (icon : Option (List (String × Json))) (cover : Json) : Request :=
  { method := "POST", url := baseUrl ++ "/databases",
    body := some (createDatabaseBody parentId title properties icon cover) }

/-- The `update_database`: PATCH /databases/{database_id}; the identifier is
interpolated as given (no dash stripping); each of the three optional
fields is included exactly when it is not `None` — a provided-but-empty
value is still sent. -/
def updateDatabaseRequest (databaseId : String)
    (title description properties : Json) : Request :=
  { method := "PATCH", url := baseUrl ++ "/databases/" ++ databaseId,
    body := some (.obj (fieldIfNotNone "title" title
      ++ fieldIfNotNone "description" description
      ++ fieldIfNotNone "properties" properties)) }

/-- The `get_page`: GET /pages/{page_id} with dashes stripped from the id. -/
def getPageRequest (pageId : String) : Request :=
  { method := "GET", url := baseUrl ++ "/pages/" ++ stripDashes pageId }

/-- The `get_block_children`: GET /blocks/{block_id}/children with dashes
stripped from the id; `start_cursor` in params only when truthy. -/
def getBlockChildrenRequest (blockId : String) (startCursor pageSize : Json) :
    Request :=
  { method := "GET",
    url := baseUrl ++ "/blocks/" ++ stripDashes blockId ++ "/children",
    params := some (.obj ([("page_size", pageSize)]
      ++ fieldIfTruthy "start_cursor" startCursor)) }

/-- The `append_block_children`: PATCH /blocks/{block_id}/children with dashes
stripped from the id; a truthy `after` is dash-stripped and included. -/
def appendBlockChildrenRequest (blockId : String) (children : Json)
    (after : Option String) : Request :=
  { method := "PATCH",
    url := baseUrl ++ "/blocks/" ++ stripDashes blockId ++ "/children",
    body := some (.obj ([("children", children)]
      ++ (match after with
          | some a =>
              if pyTruthy (.str a) then [("after", .str (stripDashes a))]
              else []
          | none => []))) }

/-- The `update_block`: PATCH /blocks/{block_id} with dashes stripped from the
id; the body keys the content under the block type. -/
def updateBlockRequest (blockId blockType : String)
    (content archived : Json) : Request :=
  { method := "PATCH", url := baseUrl ++ "/blocks/" ++ stripDashes blockId,
    body := some (.obj ([(blockType, content)]
      ++ fieldIfNotNone "archived" archived)) }

/-- The `get_block`: GET /blocks/{block_id} with dashes stripped from the
id. -/
def getBlockRequest (blockId : String) : Request :=
  { method := "GET", url := baseUrl ++ "/blocks/" ++ stripDashes blockId }

/-- The `search`: POST /search; optional fields included only when truthy. -/
def searchRequest (query filter sort startCursor : Json) (pageSize : Int) :
    Request :=
  { method := "POST", url := baseUrl ++ "/search",
    body := some (.obj ([("query", query), ("page_size", Json.num pageSize)]
      ++ fieldIfTruthy "filter" filter
      ++ fieldIfTruthy "sort" sort
      ++ fieldIfTruthy "start_cursor" startCursor)) }

/-- One invocation of a `NotionClient` method, with its arguments. -/
inductive ClientOp where
  | listDatabases
  | queryDatabase (databaseId : String) (filter sorts startCursor : Json)
      (pageSize : Int)
  | createPage (parentId properties children : Json)
  | updatePage (pageId : String) (properties archived : Json)
  | createDatabase (parentId : String) (title properties : Json)
      (icon : Option (List (String × Json))) (cover : Json)
  | updateDatabase (databaseId : String) (title description properties : Json)
  | getPage (pageId : String)
  | getBlockChildren (blockId : String) (startCursor pageSize : Json)
  | appendBlockChildren (blockId : String) (children : Json)
      (after : Option String)
  | updateBlock (blockId blockType : String) (content archived : Json)
  | getBlock (blockId : String)
  | search (query filter sort startCursor : Json) (pageSize : Int)

/-- The single request a client method sends. -/
def clientOpRequest : ClientOp → Request
  | .listDatabases => listDatabasesRequest
  | .queryDatabase i f s c p => queryDatabaseRequest i f s c p
  | .createPage p pr ch => createPageRequest p pr ch
  | .updatePage i pr a => updatePageRequest i pr a
  | .createDatabase p t pr ic cv => createDatabaseRequest p t pr ic cv
  | .updateDatabase i t d pr => updateDatabaseRequest i t d pr
  | .getPage i => getPageRequest i
  | .getBlockChildren i c p => getBlockChildrenRequest i c p
  | .appendBlockChildren i ch a => appendBlockChildrenRequest i ch a
  | .updateBlock i ty c a => updateBlockRequest i ty c a
  | .getBlock i => getBlockRequest i
  | .search q f s c p => searchRequest q f s c p

/-- The typed value a client method returns on success. -/
inductive ClientResult where
  | raw (j : Json)
  | databases (l : List Database)
  | page (p : Page)
  | database (d : Database)
  | searchRes (s : SearchResults)

/-- The `list_databases` response handling: a falsy `results` yields `[]`,
otherwise each element is decoded as a `Database` (a truthy non-list
`results` raises, as iterating it in Python feeds non-dicts to the
model constructor). -/
def decodeListDatabasesBody (data : Json) : Except PyExn (List Database) := do
  let results ← pyGetJ data "results" .null
  if !pyTruthy results then
    pure []
  else
    match results with
    | .arr items => items.mapM decodeDatabase
    | _ => .error .typeError

/-- The element conversion loop of `search()`: `item["object"]` selects
the decoder; elements whose discriminator is neither `"database"` nor
`"page"` are skipped; a failing decode aborts the whole conversion. -/
def searchConvertResults : List Json → Except PyExn (List SearchResult)
  | [] => .ok []
  | item :: rest => do
      let ov ← pyGetItemJ item "object"
      if jsonEqStr ov "database" then do
        let d ← decodeDatabase item
        let rs ← searchConvertResults rest
        pure (.database d :: rs)
      else if jsonEqStr ov "page" then do
        let p ← decodePage item
        let rs ← searchConvertResults rest
        pure (.page p :: rs)
      else
        searchConvertResults rest

/-- Requires a Python list to iterate over (`for item in …`; iterating
any other truthy value feeds unusable elements to the model constructors,
collapsed here to the raised error). -/
def asArr (v : Json) : Except PyExn (List Json) :=
  match v with
  | .arr l => .ok l
  | _ => .error .typeError

/-- The `Optional[str]` validation of an already-extracted value
(`next_cursor` of `SearchResults`). -/
def pydOptStrOfVal (v : Json) : Except PyExn (Option String) :=
  match v with
  | .null => .ok none
  | .str s => .ok (some s)
  | _ => .error .validationError

/-- The `bool` validation of an already-extracted value (`has_more` of
`SearchResults`). -/
def pydBoolOfVal (v : Json) : Except PyExn Bool :=
  match v with
  | .bool b => .ok b
  | _ => .error .validationError

/-- The `search()` response handling: converts `results` element-by-element
and revalidates the pagination fields through the `SearchResults`
model. -/
def decodeSearchBody (data : Json) : Except PyExn SearchResults := do
  let resultsJ ← pyGetJ data "results" (.arr [])
  let items ← asArr resultsJ
  let rs ← searchConvertResults items
  let ncJ ← pyGetJ data "next_cursor" .null
  let nc ← pydOptStrOfVal ncJ
  let hmJ ← pyGetJ data "has_more" (.bool false)
  let hm ← pydBoolOfVal hmJ
  pure { object := "list", results := rs, next_cursor := nc, has_more := hm }

/-- Decoding applied to the 2xx response body of each client method. -/
def clientOpDecode : ClientOp → Json → Except PyExn ClientResult
  | .listDatabases, b => do
      let dbs ← decodeListDatabasesBody b
      pure (.databases dbs)
  | .queryDatabase _ _ _ _ _, b => .ok (.raw b)
  | .createPage _ _ _, b => do let p ← decodePage b; pure (.page p)
  | .updatePage _ _ _, b => do let p ← decodePage b; pure (.page p)
  | .createDatabase _ _ _ _ _, b => do
      let d ← decodeDatabase b
      pure (.database d)
  | .updateDatabase _ _ _ _, b => do
      let d ← decodeDatabase b
      pure (.database d)
  | .getPage _, b => do let p ← decodePage b; pure (.page p)
  | .getBlockChildren _ _ _, b => .ok (.raw b)
  | .appendBlockChildren _ _ _, b => .ok (.raw b)
  | .updateBlock _ _ _ _, b => .ok (.raw b)
  | .getBlock _, b => .ok (.raw b)
  | .search _ _ _ _ _, b => do
      let s ← decodeSearchBody b
      pure (.searchRes s)

/-- Runs one client method: builds its request, sends it once through the
transport, raises for a non-2xx status, and decodes the body.  The first
component is the list of HTTP requests issued — always exactly the one
request, with no retry. -/
def runClientOp (op : ClientOp) (t : Transport) :
    List Request × Except PyExn ClientResult :=
  ([clientOpRequest op], do
    let resp ← t (clientOpRequest op)
    let resp ← raiseForStatus resp
    clientOpDecode op resp.body)

/-! ## server.py — `call_tool`

Each `elif` branch of `call_tool` becomes a definition returning the list
of HTTP requests issued together with `Except PyExn (List TextContent)`;
`callTool` is the whole handler with its outer `except Exception` turned
into a returned `"Error: …"` text.  `model_dump_json` / `json.dumps` are
embedded as `jsonDump` over re-encoded models — a serialization stand-in
whose output no theorem inspects. -/

/-- An `mcp.types.TextContent` result element. -/
structure TextContent where
  type : String
  text : String

/-- Builds the `TextContent(type="text", text=…)` every branch returns. -/
def mkText (s : String) : TextContent := { type := "text", text := s }

/-- Python `len()`. -/
def pyLen (j : Json) : Except PyExn Int :=
  match j with
  | .arr l => .ok l.length
  | .str s => .ok s.length
  | .obj l => .ok l.length
  | _ => .error .typeError

/-- The `arguments.get(k)` on the (already dict-checked) argument bag. -/
def aGet (l : List (String × Json)) (k : String) : Json :=
  (jLookup l k).getD .null

/-- The `arguments.get(k, d)`: the default applies only to a missing key. -/
def aGetD (l : List (String × Json)) (k : String) (d : Json) : Json :=
  (jLookup l k).getD d

/-- Encoders back to JSON, used only to feed the serialization
stand-in. -/
def encodeOptStr : Option String → Json
  | none => .null
  | some s => .str s

/-- The `Option` dict field encoder. -/
def encodeOptObj : Option (List (String × Json)) → Json
  | none => .null
  | some l => .obj l

/-- The `RichText` encoder. -/
def encodeRichText (rt : RichText) : Json :=
  .obj [("type", .str rt.type), ("text", .obj rt.text),
        ("annotations", encodeOptObj rt.annotations),
        ("plain_text", encodeOptStr rt.plain_text),
        ("href", encodeOptStr rt.href)]

/-- The `Option (List RichText)` field encoder. -/
def encodeOptRichTextList : Option (List RichText) → Json
  | none => .null
  | some l => .arr (l.map encodeRichText)

/-- The `PropertyValue` encoder. -/
def encodePropertyValue (pv : PropertyValue) : Json :=
  .obj [("id", .str pv.id), ("type", .str pv.type),
        ("title", encodeOptRichTextList pv.title),
        ("rich_text", encodeOptRichTextList pv.rich_text),
        ("select", encodeOptObj pv.select),
        ("multi_select",
          match pv.multi_select with
          | none => .null
          | some l => .arr (l.map Json.obj)),
        ("url", encodeOptStr pv.url),
        ("checkbox",
          match pv.checkbox with
          | none => .null
          | some b => .bool b),
        ("number",
          match pv.number with
          | none => .null
          | some n => .num n),
        ("date", encodeOptObj pv.date)]

/-- The `Page` encoder. -/
def encodePage (p : Page) : Json :=
  .obj [("object", .str p.object), ("id", .str p.id),
        ("created_time", .str p.created_time),
        ("last_edited_time", encodeOptStr p.last_edited_time),
        ("url", encodeOptStr p.url),
        ("public_url", encodeOptStr p.public_url),
        ("parent", .obj p.parent), ("archived", .bool p.archived),
        ("properties",
          .obj (p.properties.map fun kv => (kv.1, encodePropertyValue kv.2)))]

/-- The `DatabaseProperty` encoder. -/
def encodeDatabaseProperty (d : DatabaseProperty) : Json :=
  .obj [("id", .str d.id), ("name", .str d.name), ("type", .str d.type)]

/-- The `Database` encoder. -/
def encodeDatabase (d : Database) : Json :=
  .obj [("object", .str d.object), ("id", .str d.id),
        ("created_time", .str d.created_time),
        ("last_edited_time", encodeOptStr d.last_edited_time),
        ("url", encodeOptStr d.url),
        ("public_url", encodeOptStr d.public_url),
        ("title", .arr (d.title.map encodeRichText)),
        ("description", .arr (d.description.map encodeRichText)),
        ("properties",
          .obj (d.properties.map fun kv =>
            (kv.1, encodeDatabaseProperty kv.2))),
        ("archived", .bool d.archived)]

/-- The `SearchResult` encoder. -/
def encodeSearchResult : SearchResult → Json
  | .database d => encodeDatabase d
  | .page p => encodePage p

/-- The `SearchResults` encoder. -/
def encodeSearchResults (s : SearchResults) : Json :=
  .obj [("object", .str s.object),
        ("results", .arr (s.results.map encodeSearchResult)),
        ("next_cursor", encodeOptStr s.next_cursor),
        ("has_more", .bool s.has_more)]

/-- Serialization stand-in for `model_dump_json(indent=2)` /
`json.dumps(…, indent=2)`; no theorem inspects its output. -/
def jsonDump (j : Json) : String := pyRepr j

/-- The `List[Union[Database, Page]]` validation (the
`SearchResults(results=…)` constructor on raw dicts): each element must
validate as one of the union members. -/
def decodeUnionList (j : Json) : Except PyExn (List SearchResult) :=
  match j with
  | .arr l =>
      l.mapM (fun item =>
        match decodeDatabase item with
        | .ok d => .ok (.database d)
        | .error _ =>
            match decodePage item with
            | .ok p => .ok (.page p)
            | .error _ => .error PyExn.validationError)
  | _ => .error .validationError

/-- The `list_databases` branch of `call_tool`. -/
def toolListDatabases (t : Transport) :
    List Request × Except PyExn (List TextContent) :=
  let (reqs, res) := runClientOp .listDatabases t
  (reqs, do
    let r ← res
    match r with
    | .databases dbs =>
        pure [mkText (jsonDump (encodeSearchResults
          { results := dbs.map .database }))]
    | _ => pure [mkText ""])

/-- The `query_database` branch of `call_tool`. -/
def toolQueryDatabase (args : Json) (t : Transport) :
    List Request × Except PyExn (List TextContent) :=
  match args with
  | .obj l =>
      let dbid := aGet l "database_id"
      if !pyTruthy dbid then
        ([], .error (.valueError "database_id is required"))
      else
        let (reqs, res) := runClientOp
          (.queryDatabase (pyStr dbid) (aGet l "filter") (aGet l "sorts")
            .null 100) t
        (reqs, do
          let r ← res
          match r with
          | .raw data => do
              let resultsJ ← pyGetItemJ data "results"
              let rs ← decodeUnionList resultsJ
              pure [mkText (jsonDump (encodeSearchResults
                { results := rs }))]
          | _ => pure [mkText ""])
  | _ => ([], .error (.valueError "Invalid arguments"))

/-- The `create_page` branch of `call_tool`. -/
def toolCreatePage (args : Json) (t : Transport) :
    List Request × Except PyExn (List TextContent) :=
  match args with
  | .obj l =>
      let dbid := aGet l "database_id"
      let props := aGet l "properties"
      if !pyTruthy dbid || !pyTruthy props then
        ([], .error (.valueError "database_id and properties are required"))
      else
        let (reqs, res) := runClientOp
          (.createPage dbid props (aGet l "children")) t
        (reqs, do
          let r ← res
          match r with
          | .page p => pure [mkText (jsonDump (encodePage p))]
          | _ => pure [mkText ""])
  | _ => ([], .error (.valueError "Invalid arguments"))

/-- The `update_page` branch of `call_tool`. -/
def toolUpdatePage (args : Json) (t : Transport) :
    List Request × Except PyExn (List TextContent) :=
  match args with
  | .obj l =>
      let pid := aGet l "page_id"
      let props := aGet l "properties"
      if !pyTruthy pid || !pyTruthy props then
        ([], .error (.valueError "page_id and properties are required"))
      else
        let (reqs, res) := runClientOp
          (.updatePage (pyStr pid) props (aGet l "archived")) t
        (reqs, do
          let r ← res
          match r with
          | .page p => pure [mkText (jsonDump (encodePage p))]
          | _ => pure [mkText ""])
  | _ => ([], .error (.valueError "Invalid arguments"))

/-- The `get_page` branch of `call_tool`: its inner `try` turns any client
failure into a returned error text. -/
def toolGetPage (args : Json) (t : Transport) :
    List Request × Except PyExn (List TextContent) :=
  match args with
  | .obj l =>
      let pid := aGet l "page_id"
      if !pyTruthy pid then
        ([], .error (.valueError "page_id is required"))
      else
        let (reqs, res) := runClientOp (.getPage (pyStr pid)) t
        (reqs,
          match res with
          | .ok (.page p) => .ok [mkText (jsonDump (encodePage p))]
          | .ok _ => .ok [mkText ""]
          | .error e =>
              .ok [mkText ("Error retrieving page: " ++ pyExnStr e)])
  | _ => ([], .error (.valueError "Invalid arguments"))

/-- The `get_page_content` branch of `call_tool` (inner `try` as in
`get_page`). -/
def toolGetPageContent (args : Json) (t : Transport) :
    List Request × Except PyExn (List TextContent) :=
  match args with
  | .obj l =>
      let pid := aGet l "page_id"
      if !pyTruthy pid then
        ([], .error (.valueError "page_id is required"))
      else
        let (reqs, res) := runClientOp
          (.getBlockChildren (pyStr pid) (aGet l "start_cursor")
            (aGetD l "page_size" (.num 100))) t
        (reqs,
          match res with
          | .ok (.raw j) => .ok [mkText (jsonDump j)]
          | .ok _ => .ok [mkText ""]
          | .error e =>
              .ok [mkText ("Error retrieving page content: " ++ pyExnStr e)])
  | _ => ([], .error (.valueError "Invalid arguments"))

/-- The diagnostic text of the `append_page_content` inner handler. -/
def appendErrorText (e : PyExn) : String :=
  let msg := pyExnStr e
  if containsSubstr msg "400" then
    "Error 400: Bad Request. Common issues include:\n"
      ++ "1. Invalid block_id format\n"
      ++ "2. Invalid block structure in children\n"
      ++ "3. Block nesting too deep (max 2 levels)\n"
      ++ "4. Invalid \x27after\x27 block ID\n\n"
      ++ "Original error: " ++ msg
  else if containsSubstr msg "404" then
    "Error 404: Not Found. The block ID doesn\x27t exist or the "
      ++ "integration doesn\x27t have access to it.\n\n"
      ++ "Original error: " ++ msg
  else
    "Error appending content: " ++ msg

/-- The `append_page_content` branch of `call_tool`: validates the argument
bag (including the 100-block cap, which raises to the outer handler
before any client call), then appends inside an inner `try`.  A truthy
non-string `after` makes the client's `after.replace` raise before
sending, which the inner handler catches. -/
def toolAppendPageContent (args : Json) (t : Transport) :
    List Request × Except PyExn (List TextContent) :=
  match args with
  | .obj l =>
      let bid := aGet l "block_id"
      let children := aGet l "children"
      let after := aGet l "after"
      if !pyTruthy bid || !pyTruthy children then
        ([], .error (.valueError "block_id and children are required"))
      else
        match pyLen children with
        | .error e => ([], .error e)
        | .ok n =>
          if n > 100 then
            ([], .error (.valueError
              "Maximum of 100 blocks can be appended in a single request"))
          else
            let afterArg : Except PyExn (Option String) :=
              match after with
              | .str s => .ok (some s)
              | j => if pyTruthy j then .error .attributeError else .ok none
            match afterArg with
            | .error e => ([], .ok [mkText (appendErrorText e)])
            | .ok a =>
                let (reqs, res) := runClientOp
                  (.appendBlockChildren (pyStr bid) children a) t
                (reqs,
                  match res with
                  | .ok (.raw j) =>
                      .ok [mkText ("Successfully appended " ++ toString n
                        ++ " blocks to " ++ pyStr bid
                        ++ (if pyTruthy after then
                              " after block " ++ pyStr after
                            else "")
                        ++ "\n\nResponse:\n" ++ jsonDump j)]
                  | .ok _ => .ok [mkText ""]
                  | .error e => .ok [mkText (appendErrorText e)])
  | _ => ([], .error (.valueError "Invalid arguments"))

/-- The `search` branch of `call_tool`. -/
def toolSearch (args : Json) (t : Transport) :
    List Request × Except PyExn (List TextContent) :=
  match args with
  | .obj l =>
      let (reqs, res) := runClientOp
        (.search (aGetD l "query" (.str "")) (aGet l "filter")
          (aGet l "sort") .null 100) t
      (reqs, do
        let r ← res
        match r with
        | .searchRes s => pure [mkText (jsonDump (encodeSearchResults s))]
        | _ => pure [mkText ""])
  | _ => ([], .error (.valueError "Invalid arguments"))

/-- The diagnostic text of the `create_database` inner handler. -/
def createDatabaseErrorText (e : PyExn) (parentId titleText properties : Json) :
    String :=
  let msg := pyExnStr e
  if containsSubstr msg "400" then
    "Error 400: Bad Request. Common issues include:\n"
      ++ "1. Invalid parent_id format (should be 32 characters without dashes)\n"
      ++ "2. Missing required fields in properties\n"
      ++ "3. Invalid property configurations\n\n"
      ++ "Original error: " ++ msg ++ "\n\n"
      ++ "Request data:\n"
      ++ "parent_id: " ++ pyStr parentId ++ "\n"
      ++ "title: " ++ pyStr titleText ++ "\n"
      ++ "properties: " ++ jsonDump properties
  else
    "Error: " ++ msg

/-- The `create_database` branch of `call_tool`: wraps the title string into a
rich-text array, applies the server-side default-emoji substitution, and
creates inside an inner `try`.  A truthy non-dict icon makes the client's
`icon.get` raise before sending, which the inner handler catches. -/
def toolCreateDatabase (args : Json) (t : Transport) :
    List Request × Except PyExn (List TextContent) :=
  match args with
  | .obj l =>
      let parentId := aGet l "parent_id"
      let titleText := aGet l "title"
      let properties := aGet l "properties"
      if !pyTruthy parentId || !pyTruthy titleText || !pyTruthy properties then
        ([], .error (.valueError "parent_id, title, and properties are required"))
      else
        let title : Json := .arr [.obj [("type", .str "text"),
          ("text", .obj [("content", titleText), ("link", .null)])]]
        let iconJ := aGet l "icon"
        let iconServer : Json :=
          match iconJ with
          | .obj d =>
              if pyTruthy (.obj d)
                  && jsonEqStr ((jLookup d "type").getD .null) "emoji"
                  && !pyTruthy ((jLookup d "emoji").getD .null) then
                .obj (pySetItem d "emoji" (.str "📄"))
              else .obj d
          | j => j
        let iconArg : Except PyExn (Option (List (String × Json))) :=
          match iconServer with
          | .obj d => .ok (some d)
          | j => if pyTruthy j then .error .attributeError else .ok none
        match iconArg with
        | .error e =>
            ([], .ok [mkText
              (createDatabaseErrorText e parentId titleText properties)])
        | .ok ic =>
            let (reqs, res) := runClientOp
              (.createDatabase (pyStr parentId) title properties ic
                (aGet l "cover")) t
            (reqs,
              match res with
              | .ok (.database d) => .ok [mkText (jsonDump (encodeDatabase d))]
              | .ok _ => .ok [mkText ""]
              | .error e =>
                  .ok [mkText
                    (createDatabaseErrorText e parentId titleText properties)])
  | _ => ([], .error (.valueError "Invalid arguments"))

/-- The `update_database` branch of `call_tool`: the title/description strings
are wrapped into rich-text arrays only when present and truthy, else sent
as `None`. -/
def toolUpdateDatabase (args : Json) (t : Transport) :
    List Request × Except PyExn (List TextContent) :=
  match args with
  | .obj l =>
      let dbid := aGet l "database_id"
      if !pyTruthy dbid then
        ([], .error (.valueError "database_id is required"))
      else
        let titleArg : Json :=
          match jLookup l "title" with
          | some v =>
              if pyTruthy v then
                .arr [.obj [("type", .str "text"),
                  ("text", .obj [("content", v), ("link", .null)])]]
              else .null
          | none => .null
        let descArg : Json :=
          match jLookup l "description" with
          | some v =>
              if pyTruthy v then
                .arr [.obj [("type", .str "text"),
                  ("text", .obj [("content", v), ("link", .null)])]]
              else .null
          | none => .null
        let (reqs, res) := runClientOp
          (.updateDatabase (pyStr dbid) titleArg descArg
            (aGet l "properties")) t
        (reqs, do
          let r ← res
          match r with
          | .database d => pure [mkText (jsonDump (encodeDatabase d))]
          | _ => pure [mkText ""])
  | _ => ([], .error (.valueError "Invalid arguments"))

/-- The `get_block` branch of `call_tool` (inner `try` as in `get_page`). -/
def toolGetBlock (args : Json) (t : Transport) :
    List Request × Except PyExn (List TextContent) :=
  match args with
  | .obj l =>
      let bid := aGet l "block_id"
      if !pyTruthy bid then
        ([], .error (.valueError "block_id is required"))
      else
        let (reqs, res) := runClientOp (.getBlock (pyStr bid)) t
        (reqs,
          match res with
          | .ok (.raw j) => .ok [mkText (jsonDump j)]
          | .ok _ => .ok [mkText ""]
          | .error e =>
              .ok [mkText ("Error retrieving block: " ++ pyExnStr e)])
  | _ => ([], .error (.valueError "Invalid arguments"))

/-- The diagnostic text of the `update_block` inner handler. -/
def updateBlockErrorText (e : PyExn) : String :=
  let msg := pyExnStr e
  if containsSubstr msg "400" then
    "Error 400: Bad Request. Common issues include:\n"
      ++ "1. Invalid block_id format\n"
      ++ "2. Incorrect block_type\n"
      ++ "3. Invalid content structure for the block type\n"
      ++ "4. Trying to remove toggle from a heading with children\n\n"
      ++ "Original error: " ++ msg
  else if containsSubstr msg "404" then
    "Error 404: Not Found. The block ID doesn\x27t exist, has been "
      ++ "archived, or the integration doesn\x27t have access to it.\n\n"
      ++ "Original error: " ++ msg
  else
    "Error updating block: " ++ msg

/-- The `update_block` branch of `call_tool` (inner `try` with the 400/404
diagnostics). -/
def toolUpdateBlock (args : Json) (t : Transport) :
    List Request × Except PyExn (List TextContent) :=
  match args with
  | .obj l =>
      let bid := aGet l "block_id"
      let btype := aGet l "block_type"
      let content := aGet l "content"
      if !pyTruthy bid || !pyTruthy btype || !pyTruthy content then
        ([], .error (.valueError
          "block_id, block_type, and content are required"))
      else
        let (reqs, res) := runClientOp
          (.updateBlock (pyStr bid) (pyStr btype) content
            (aGet l "archived")) t
        (reqs,
          match res with
          | .ok (.raw j) =>
              .ok [mkText ("Successfully updated block " ++ pyStr bid
                ++ "\n\n" ++ "Response:\n" ++ jsonDump j)]
          | .ok _ => .ok [mkText ""]
          | .error e => .ok [mkText (updateBlockErrorText e)])
  | _ => ([], .error (.valueError "Invalid arguments"))

/-- The body of `call_tool` (everything inside the outer `try`): the
name-dispatch chain, ending in the `Unknown tool` raise. -/
def callToolBody (name : String) (args : Json) (t : Transport) :
    List Request × Except PyExn (List TextContent) :=
  if name = "list_databases" then toolListDatabases t
  else if name = "query_database" then toolQueryDatabase args t
  else if name = "create_page" then toolCreatePage args t
  else if name = "update_page" then toolUpdatePage args t
  else if name = "get_page" then toolGetPage args t
  else if name = "get_page_content" then toolGetPageContent args t
  else if name = "append_page_content" then toolAppendPageContent args t
  else if name = "search" then toolSearch args t
  else if name = "create_database" then toolCreateDatabase args t
  else if name = "update_database" then toolUpdateDatabase args t
  else if name = "get_block" then toolGetBlock args t
  else if name = "update_block" then toolUpdateBlock args t
  else ([], .error (.valueError ("Unknown tool: " ++ name)))

/-- The `call_tool` (server.py): the body wrapped in the outer
`except Exception`, which converts any raised failure into a single
`"Error: …"` text message. -/
def callTool (name : String) (args : Json) (t : Transport) :
    List Request × List TextContent :=
  match callToolBody name args t with
  | (reqs, .ok msgs) => (reqs, msgs)
  | (reqs, .error e) => (reqs, [mkText ("Error: " ++ pyExnStr e)])

/-! ## Spec-side comparison definitions

These follow the specification's words (not the source), for the
refinement-style statements that compare the code's behavior against
them. -/

/-- Does a search-result element carry the discriminator `s`? -/
def discrIs (item : Json) (s : String) : Bool :=
  match item with
  | .obj l =>
      match jLookup l "object" with
      | some v => jsonEqStr v s
      | none => false
  | _ => false

/-- Modelled from the spec: "drops elements whose discriminator is
neither page nor database and preserves order of the remaining
elements", "each decoded per its own discriminator" — the in-order
filter-map of the decodable elements. -/
def specSearchKeptDecodes (items : List Json) : List SearchResult :=
  items.filterMap (fun i =>
    if discrIs i "database" then (decodeDatabase i).toOption.map .database
    else if discrIs i "page" then (decodePage i).toOption.map .page
    else none)

/-- The fields of a request's JSON-object body (`[]` when there is no
object body). -/
def reqBodyFields (r : Request) : List (String × Json) :=
  match r.body with
  | some (.obj l) => l
  | _ => []

/-- The `none` for the embedded Python `None`, `some` otherwise — the shape of
an optional request-body field. -/
def noneIfNull (v : Json) : Option Json :=
  match v with
  | .null => none
  | _ => some v

/-- The body keys contributed by one optional field (present exactly when
the value is not `None`). -/
def keysOfOpt (k : String) (v : Json) : List String :=
  match v with
  | .null => []
  | _ => [k]

/-! ## Theorems -/

/-- Reduction of an `Except` bind whose first computation succeeded. -/
theorem ok_bind {ε α β : Type} (x : α) (f : α → Except ε β) :
    ((Except.ok x : Except ε α) >>= f) = f x := rfl

/-- Reduction of an `Except` bind whose first computation failed. -/
theorem error_bind {ε α β : Type} (e : ε) (f : α → Except ε β) :
    ((Except.error e : Except ε α) >>= f) = .error e := rfl

/-- The `renderRun` on a run with a literal shape reduces to the
marker-application tail fed with the annotation lookups (and no link,
since the run has no `href` key). -/
theorem renderRun_mk (txt : String) (a : List (String × Json)) :
    renderRun (.obj [("text", .obj [("content", .str txt)]),
        ("annotations", .obj a)])
      = renderRunFlags (.str txt) ((jLookup a "bold").getD .null)
          ((jLookup a "italic").getD .null)
          ((jLookup a "strikethrough").getD .null)
          ((jLookup a "code").getD .null) .null := rfl

/-- C1 (counterexample): decoding a `PropertyValue` whose `type` is
`"checkbox"` but whose only populated variant field is `title` succeeds —
the populated variant does not match the `type` discriminator, yet no
`DecodeError` is produced; likewise a `type` matching no variant field at
all decodes successfully instead of failing with "unsupported kind". -/
theorem C1_counterexample :
    decodePropertyValue (.obj [("id", .str "a"), ("type", .str "checkbox"),
        ("title", .arr [.obj [("type", .str "text"), ("text", .obj [])]])])
      = .ok { id := "a", type := "checkbox",
              title := some [{ type := "text", text := [] }] }
    ∧ decodePropertyValue
        (.obj [("id", .str "a"), ("type", .str "unsupported_kind")])
      = .ok { id := "a", type := "unsupported_kind" }
    ∧ ("checkbox" : String) ≠ "title" :=
  ⟨rfl, rfl, by decide⟩

/-- C1 (amended): `PropertyValue` decoding requires only `id` and `type`;
every variant field is optional and decoded independently of `type`, so a
decode with no matching variant field succeeds (all variants `none`) and a
populated variant is accepted whatever the `type` says — no consistency
check is performed at decode time. -/
theorem C1_amended : ∀ (i ty : String) (b : Bool),
    decodePropertyValue (.obj [("id", .str i), ("type", .str ty)])
      = .ok { id := i, type := ty }
    ∧ decodePropertyValue
        (.obj [("id", .str i), ("type", .str ty), ("checkbox", .bool b)])
      = .ok { id := i, type := ty, checkbox := some b } := by
  intro i ty b
  exact ⟨rfl, rfl⟩

/-- C2 (counterexample): `query_database` interpolates the identifier into
the request path exactly as given — for the dashed input `"ab-cd"` the
path keeps the dash and does not contain the normalized, separator-free
form `"abcd"` at all. -/
theorem C2_counterexample :
    (queryDatabaseRequest "ab-cd" .null .null .null 100).url
      = "https://api.notion.com/v1/databases/ab-cd/query"
    ∧ stripDashes "ab-cd" = "abcd"
    ∧ containsSubstr (queryDatabaseRequest "ab-cd" .null .null .null 100).url
        (stripDashes "ab-cd") = false :=
  ⟨rfl, rfl, by decide⟩

/-- C2 (amended): dash-stripping is applied by `get_page`, `get_block`,
`get_block_children`, `append_block_children`, `update_block`, and by
`create_database` for its parent id — but `query_database`, `update_page`
and `update_database` place the input identifier in the request path
verbatim, dashes included. -/
theorem C2_amended : ∀ (id bt : String) (f s c props arch t d pr cursor ps ct
    children cv : Json) (ic : Option (List (String × Json)))
    (after : Option String) (pageSize : Int),
    (getPageRequest id).url = baseUrl ++ "/pages/" ++ stripDashes id
    ∧ (getBlockRequest id).url = baseUrl ++ "/blocks/" ++ stripDashes id
    ∧ (getBlockChildrenRequest id cursor ps).url
        = baseUrl ++ "/blocks/" ++ stripDashes id ++ "/children"
    ∧ (appendBlockChildrenRequest id children after).url
        = baseUrl ++ "/blocks/" ++ stripDashes id ++ "/children"
    ∧ (updateBlockRequest id bt ct arch).url
        = baseUrl ++ "/blocks/" ++ stripDashes id
    ∧ (∃ rest, reqBodyFields (createDatabaseRequest id t pr ic cv)
        = ("parent", .obj [("type", .str "page_id"),
            ("page_id", .str (stripDashes id))]) :: rest)
    ∧ (queryDatabaseRequest id f s c pageSize).url
        = baseUrl ++ "/databases/" ++ id ++ "/query"
    ∧ (updatePageRequest id props arch).url = baseUrl ++ "/pages/" ++ id
    ∧ (updateDatabaseRequest id t d pr).url
        = baseUrl ++ "/databases/" ++ id := by
  intro id bt f s c props arch t d pr cursor ps ct children cv ic after pageSize
  refine ⟨rfl, rfl, rfl, rfl, rfl, ?_, rfl, rfl, rfl⟩
  cases ic with
  | none => exact ⟨_, rfl⟩
  | some icl =>
      simp only [createDatabaseRequest, createDatabaseBody, reqBodyFields]
      split
      · exact ⟨_, rfl⟩
      · split
        · exact ⟨_, rfl⟩
        · exact ⟨_, rfl⟩

/-- C3 (counterexample): a run with both `bold` and `code` set renders
with the code span OUTSIDE the bold markers — the opposite of the claimed
bold-outside-code nesting order. -/
theorem C3_counterexample :
    richTextToMarkdown (.arr [.obj [("text", .obj [("content", .str "x")]),
        ("annotations", .obj [("bold", .bool true), ("code", .bool true)])]])
      = .ok ("`" ++ "**x**" ++ "`")
    ∧ ("`" ++ "**x**" ++ "`" : String) ≠ "**" ++ "`x`" ++ "**" :=
  ⟨rfl, by decide⟩

/-- C3 (amended): the markers are applied in the fixed source order bold,
italic, strikethrough, code, link — each wrapping the previous, so the
LINK is outermost and bold innermost (the reverse of the claimed
nesting); the output depends on the annotations map only through its key
lookups, hence is identical under any reordering of its keys; and a
bold+italic run with content `x` renders as the flat string `***x***`. -/
theorem C3_amended : ∀ (a₁ a₂ : List (String × Json)) (txt : String),
    (∀ k, jLookup a₁ k = jLookup a₂ k) →
    renderRun (.obj [("text", .obj [("content", .str txt)]),
        ("annotations", .obj a₁)])
      = renderRun (.obj [("text", .obj [("content", .str txt)]),
          ("annotations", .obj a₂)])
    ∧ richTextToMarkdown (.arr [.obj [("text", .obj [("content", .str "x")]),
        ("annotations", .obj [("bold", .bool true), ("italic", .bool true)])]])
      = .ok "***x***"
    ∧ renderRun (.obj [("text", .obj [("content", .str txt)]),
        ("annotations", .obj [("bold", .bool true), ("italic", .bool true),
          ("strikethrough", .bool true), ("code", .bool true)]),
        ("href", .str "u")])
      = .ok ("[" ++ ("`" ++ ("~~" ++ ("*" ++ ("**" ++ txt ++ "**") ++ "*")
          ++ "~~") ++ "`") ++ "](" ++ "u" ++ ")") := by
  intro a₁ a₂ txt h
  refine ⟨?_, rfl, rfl⟩
  rw [renderRun_mk, renderRun_mk, h "bold", h "italic", h "strikethrough",
    h "code"]

/-- C3 (witness): the amended statement at the concrete annotation maps
`[bold, italic]` and `[italic, bold]` (same bindings, opposite key order)
and content `"x"`. -/
theorem C3_amended_witness :
    renderRun (.obj [("text", .obj [("content", .str "x")]),
        ("annotations", .obj [("bold", .bool true), ("italic", .bool true)])])
      = renderRun (.obj [("text", .obj [("content", .str "x")]),
          ("annotations", .obj [("italic", .bool true), ("bold", .bool true)])])
    ∧ richTextToMarkdown (.arr [.obj [("text", .obj [("content", .str "x")]),
        ("annotations", .obj [("bold", .bool true), ("italic", .bool true)])]])
      = .ok "***x***"
    ∧ renderRun (.obj [("text", .obj [("content", .str "x")]),
        ("annotations", .obj [("bold", .bool true), ("italic", .bool true),
          ("strikethrough", .bool true), ("code", .bool true)]),
        ("href", .str "u")])
      = .ok ("[" ++ ("`" ++ ("~~" ++ ("*" ++ ("**" ++ "x" ++ "**") ++ "*")
          ++ "~~") ++ "`") ++ "](" ++ "u" ++ ")") := by
  refine C3_amended [("bold", .bool true), ("italic", .bool true)]
    [("italic", .bool true), ("bold", .bool true)] "x" ?_
  intro k
  by_cases h1 : "bold" = k
  · by_cases h2 : "italic" = k
    · exact absurd (h2.trans h1.symm) (by decide)
    · simp [jLookup, h1, h2]
  · by_cases h2 : "italic" = k
    · simp [jLookup, h1, h2]
    · simp [jLookup, h1, h2]

/-- C4 (counterexample): `block_to_markdown` is not total — a block whose
payload under the `type` key is not a dict makes the payload's `.get`
raise (`AttributeError`), so the renderer raises instead of returning a
string. -/
theorem C4_counterexample :
    blockToMarkdown (.obj [("type", .str "paragraph"), ("paragraph", .num 5)])
      = .error .attributeError := rfl

/-- C4 (amended): on blocks whose payload is well-shaped enough for the
rich-text extraction to succeed, a present, non-empty `type` outside the
ten recognized kinds renders by the fallback rule — the rendered rich
text followed by two newlines. -/
theorem C4_amended : ∀ (bl : List (String × Json)) (ty : String) (rtj : Json)
    (r : String),
    jLookup bl "type" = some (.str ty) →
    ty ≠ "" →
    ty ∉ (["paragraph", "heading_1", "heading_2", "heading_3",
      "bulleted_list_item", "numbered_list_item", "to_do", "code", "quote",
      "divider"] : List String) →
    pyGetJ ((jLookup bl ty).getD (.obj [])) "rich_text" (.arr []) = .ok rtj →
    richTextToMarkdown rtj = .ok r →
    blockToMarkdown (.obj bl) = .ok (r ++ "\n\n") := by
  intro bl ty rtj r hty hne hmem hrt hrender
  simp only [List.mem_cons, List.mem_singleton, not_or] at hmem
  obtain ⟨h1, h2, h3, h4, h5, h6, h7, h8, h9, h10, -⟩ := hmem
  unfold blockToMarkdown
  rw [show pyGetJ (.obj bl) "type" .null = .ok (.str ty) from by
    simp [pyGetJ, hty]]
  rw [ok_bind]
  rw [show pyTruthy (.str ty) = true from by simp [pyTruthy, hne]]
  simp only [Bool.not_true, Bool.false_eq_true, if_false]
  rw [show pyGetJ (.obj bl) ty (.obj [])
      = .ok ((jLookup bl ty).getD (.obj [])) from rfl]
  rw [ok_bind, hrt, ok_bind, hrender, ok_bind]
  split
  all_goals try rfl
  all_goals simp_all

/-- Reduction of `pure` on `Except` to `.ok`. -/
theorem pure_eq_ok {α : Type} (x : α) : (pure x : Except PyExn α) = .ok x := rfl

/-- A successful `Except` computation carries a value. -/
theorem ok_of_isOk {α : Type} (x : Except PyExn α) (h : x.isOk = true) :
    ∃ a, x = .ok a := by
  cases x with
  | ok a => exact ⟨a, rfl⟩
  | error e => simp [Except.isOk, Except.toBool] at h

/-- The `search()` conversion loop refines the spec-side order-preserving
filter-map whenever every element carries an `object` discriminator and
the selected decoders succeed. -/
theorem searchConvert_eq : ∀ (items : List Json),
    (∀ i ∈ items, ∃ l v, i = .obj l ∧ jLookup l "object" = some v) →
    (∀ i ∈ items, discrIs i "database" = true → (decodeDatabase i).isOk = true) →
    (∀ i ∈ items, discrIs i "page" = true → (decodePage i).isOk = true) →
    searchConvertResults items = .ok (specSearchKeptDecodes items) := by
  intro items
  induction items with
  | nil => intro _ _ _; rfl
  | cons i rest ih =>
      intro hobj hdb hpg
      obtain ⟨l, v, rfl, hv⟩ := hobj i (List.mem_cons_self i rest)
      have ihr := ih (fun j hj => hobj j (List.mem_cons_of_mem _ hj))
        (fun j hj => hdb j (List.mem_cons_of_mem _ hj))
        (fun j hj => hpg j (List.mem_cons_of_mem _ hj))
      unfold searchConvertResults
      rw [show pyGetItemJ (.obj l) "object" = .ok v from by
        simp [pyGetItemJ, hv]]
      rw [ok_bind]
      by_cases hd : jsonEqStr v "database" = true
      · rw [if_pos hd]
        have hdisc : discrIs (.obj l) "database" = true := by
          simp [discrIs, hv, hd]
        obtain ⟨d, hdec⟩ := ok_of_isOk _
          (hdb _ (List.mem_cons_self _ _) hdisc)
        rw [hdec, ok_bind, ihr, ok_bind]
        simp [specSearchKeptDecodes, List.filterMap_cons, discrIs, hv, hd,
          hdec, Except.toOption, pure_eq_ok]
      · rw [if_neg hd]
        by_cases hp : jsonEqStr v "page" = true
        · rw [if_pos hp]
          have hdisc : discrIs (.obj l) "page" = true := by
            simp [discrIs, hv, hp]
          obtain ⟨p, hdec⟩ := ok_of_isOk _
            (hpg _ (List.mem_cons_self _ _) hdisc)
          rw [hdec, ok_bind, ihr, ok_bind]
          simp [specSearchKeptDecodes, List.filterMap_cons, discrIs, hv, hd,
            hp, hdec, Except.toOption, pure_eq_ok]
        · rw [if_neg hp, ihr]
          simp [specSearchKeptDecodes, List.filterMap_cons, discrIs, hv, hd,
            hp]

/-- C5: when every search-result element carries an `object` discriminator
and the elements tagged `"database"`/`"page"` decode, the conversion drops
exactly the elements with any other discriminator — without raising for
them — and returns the remaining elements, each decoded per its own
discriminator, in their original relative order; a whole response body
with such a `results` list decodes to the corresponding
`SearchResults`. -/
theorem C5_search_drops_unknown_preserves_order : ∀ (items : List Json),
    (∀ i ∈ items, ∃ l v, i = .obj l ∧ jLookup l "object" = some v) →
    (∀ i ∈ items, discrIs i "database" = true → (decodeDatabase i).isOk = true) →
    (∀ i ∈ items, discrIs i "page" = true → (decodePage i).isOk = true) →
    searchConvertResults items = .ok (specSearchKeptDecodes items)
    ∧ decodeSearchBody (.obj [("results", .arr items)])
        = .ok { object := "list", results := specSearchKeptDecodes items } := by
  intro items hobj hdb hpg
  have h1 := searchConvert_eq items hobj hdb hpg
  refine ⟨h1, ?_⟩
  unfold decodeSearchBody
  rw [show pyGetJ (.obj [("results", .arr items)]) "results" (.arr [])
      = .ok (.arr items) from rfl]
  rw [ok_bind]
  rw [show asArr (.arr items) = .ok items from rfl]
  rw [ok_bind, h1, ok_bind]
  rfl

/-- C5 (witness): the statement at a concrete three-element results list —
a decodable database, an element with unknown discriminator `"weird"`
(dropped, no error), and a decodable page, returned in that order. -/
theorem C5_witness :
    searchConvertResults [
      .obj [("object", .str "database"), ("id", .str "d1"),
        ("created_time", .str "2024-01-01T00:00:00Z"), ("title", .arr []),
        ("properties", .obj [])],
      .obj [("object", .str "weird")],
      .obj [("object", .str "page"), ("id", .str "p1"),
        ("created_time", .str "2024-01-01T00:00:00Z"), ("parent", .obj []),
        ("properties", .obj [])]]
      = .ok (specSearchKeptDecodes [
        .obj [("object", .str "database"), ("id", .str "d1"),
          ("created_time", .str "2024-01-01T00:00:00Z"), ("title", .arr []),
          ("properties", .obj [])],
        .obj [("object", .str "weird")],
        .obj [("object", .str "page"), ("id", .str "p1"),
          ("created_time", .str "2024-01-01T00:00:00Z"), ("parent", .obj []),
          ("properties", .obj [])]])
    ∧ decodeSearchBody (.obj [("results", .arr [
        .obj [("object", .str "database"), ("id", .str "d1"),
          ("created_time", .str "2024-01-01T00:00:00Z"), ("title", .arr []),
          ("properties", .obj [])],
        .obj [("object", .str "weird")],
        .obj [("object", .str "page"), ("id", .str "p1"),
          ("created_time", .str "2024-01-01T00:00:00Z"), ("parent", .obj []),
          ("properties", .obj [])]])])
        = .ok { object := "list", results := specSearchKeptDecodes [
            .obj [("object", .str "database"), ("id", .str "d1"),
              ("created_time", .str "2024-01-01T00:00:00Z"), ("title", .arr []),
              ("properties", .obj [])],
            .obj [("object", .str "weird")],
            .obj [("object", .str "page"), ("id", .str "p1"),
              ("created_time", .str "2024-01-01T00:00:00Z"), ("parent", .obj []),
              ("properties", .obj [])]] } := by
  refine C5_search_drops_unknown_preserves_order _ ?_ ?_ ?_
  · intro i hi
    simp only [List.mem_cons, List.not_mem_nil, or_false] at hi
    rcases hi with rfl | rfl | rfl
    · exact ⟨_, _, rfl, rfl⟩
    · exact ⟨_, _, rfl, rfl⟩
    · exact ⟨_, _, rfl, rfl⟩
  · intro i hi hd
    simp only [List.mem_cons, List.not_mem_nil, or_false] at hi
    rcases hi with rfl | rfl | rfl
    · rfl
    · exact absurd hd (by decide)
    · exact absurd hd (by decide)
  · intro i hi hp
    simp only [List.mem_cons, List.not_mem_nil, or_false] at hi
    rcases hi with rfl | rfl | rfl
    · exact absurd hp (by decide)
    · exact absurd hp (by decide)
    · rfl

/-- C6: every client operation issues exactly one HTTP request — pass or
fail, with no retry — and whenever the transport delivers a response with
a non-2xx status, the operation raises the HTTP-status failure carrying
that response's status code and body. -/
theorem C6_single_request_remote_error : ∀ (op : ClientOp) (t : Transport),
    (runClientOp op t).1 = [clientOpRequest op]
    ∧ (∀ resp : Response, t (clientOpRequest op) = .ok resp →
        is2xx resp.status = false →
        (runClientOp op t).2 = .error (.httpStatusError resp.status resp.body)) := by
  intro op t
  refine ⟨rfl, ?_⟩
  intro resp h1 h2
  show (do
    let r ← t (clientOpRequest op)
    let r2 ← raiseForStatus r
    clientOpDecode op r2.body) = _
  rw [h1, ok_bind]
  unfold raiseForStatus
  rw [h2]
  simp only [Bool.false_eq_true, if_false]
  rw [error_bind]

/-- C6 (witness): `get_page` against a transport answering 404 with body
`"not found"` sends exactly its one request and raises the status failure
carrying 404 and that body. -/
theorem C6_witness :
    (runClientOp (.getPage "p1")
      (fun _ => .ok { status := 404, body := .str "not found" })).1
      = [clientOpRequest (.getPage "p1")]
    ∧ (runClientOp (.getPage "p1")
        (fun _ => .ok { status := 404, body := .str "not found" })).2
        = .error (.httpStatusError 404 (.str "not found")) := by
  have h := C6_single_request_remote_error (.getPage "p1")
    (fun _ => .ok { status := 404, body := .str "not found" })
  exact ⟨h.1, h.2 { status := 404, body := .str "not found" } rfl (by decide)⟩

/-- C7: the `update_database` patch body contains exactly the fields that
were supplied (not `None`): all three omitted gives the empty object, a
field looks up to exactly its supplied value, the body's key list is
exactly the supplied keys, and a provided-but-empty title (`[]`) is still
sent — enabling clearing — unlike an omitted one. -/
theorem C7_update_database_body_exact : ∀ (id : String) (t d p : Json),
    (updateDatabaseRequest id .null .null .null).body = some (.obj [])
    ∧ (updateDatabaseRequest id (.arr []) .null .null).body
        = some (.obj [("title", .arr [])])
    ∧ jLookup (reqBodyFields (updateDatabaseRequest id t d p)) "title"
        = noneIfNull t
    ∧ jLookup (reqBodyFields (updateDatabaseRequest id t d p)) "description"
        = noneIfNull d
    ∧ jLookup (reqBodyFields (updateDatabaseRequest id t d p)) "properties"
        = noneIfNull p
    ∧ (reqBodyFields (updateDatabaseRequest id t d p)).map Prod.fst
        = keysOfOpt "title" t ++ keysOfOpt "description" d
          ++ keysOfOpt "properties" p := by
  intro id t d p
  refine ⟨rfl, rfl, ?_, ?_, ?_, ?_⟩ <;>
    cases t <;> cases d <;> cases p <;> rfl

/-- Looking up the just-assigned key of a Python dict returns the new
value. -/
theorem jLookup_pySetItem : ∀ (l : List (String × Json)) (k : String) (v : Json),
    jLookup (pySetItem l k v) k = some v := by
  intro l k v
  induction l with
  | nil => simp [pySetItem, jLookup]
  | cons kv rest ih =>
      obtain ⟨kk, w⟩ := kv
      by_cases h : kk = k
      · simp [pySetItem, jLookup, h]
      · simp [pySetItem, jLookup, h, ih]

/-- C8: a `create_database` icon of type `"emoji"` whose glyph is falsy
(e.g. the empty string) is sent with the default glyph `📄` written into
it — the request body's `icon.emoji` equals the default, not the empty
string — while any other (truthy) icon is attached to the body
unchanged. -/
theorem C8_create_database_default_emoji : ∀ (pid : String)
    (title props cover : Json) (ic : List (String × Json)),
    (ic ≠ [] →
      jsonEqStr ((jLookup ic "type").getD .null) "emoji" = true →
      pyTruthy ((jLookup ic "emoji").getD .null) = false →
      jLookup (reqBodyFields
          (createDatabaseRequest pid title props (some ic) cover)) "icon"
        = some (.obj (pySetItem ic "emoji" (.str "📄")))
      ∧ jLookup (pySetItem ic "emoji" (.str "📄")) "emoji"
        = some (.str "📄"))
    ∧ (ic ≠ [] →
      (jsonEqStr ((jLookup ic "type").getD .null) "emoji" = false
        ∨ pyTruthy ((jLookup ic "emoji").getD .null) = true) →
      jLookup (reqBodyFields
          (createDatabaseRequest pid title props (some ic) cover)) "icon"
        = some (.obj ic)) := by
  intro pid title props cover ic
  have hpre : ∀ h : ic ≠ [], ic.isEmpty = false := by
    intro h
    cases ic with
    | nil => exact absurd rfl h
    | cons a l => rfl
  constructor
  · intro hne hty hem
    have h1 := hpre hne
    refine ⟨?_, jLookup_pySetItem ic "emoji" (.str "📄")⟩
    simp only [createDatabaseRequest, createDatabaseBody, reqBodyFields]
    rw [if_pos (show (!ic.isEmpty
        && jsonEqStr ((jLookup ic "type").getD .null) "emoji"
        && !pyTruthy ((jLookup ic "emoji").getD .null)) = true by
      rw [h1, hty, hem]; rfl)]
    rfl
  · intro hne hor
    have h1 := hpre hne
    simp only [createDatabaseRequest, createDatabaseBody, reqBodyFields]
    rw [if_neg (show ¬ ((!ic.isEmpty
        && jsonEqStr ((jLookup ic "type").getD .null) "emoji"
        && !pyTruthy ((jLookup ic "emoji").getD .null)) = true) by
      rcases hor with h | h <;> simp [h])]
    rw [if_pos (show (!ic.isEmpty) = true by rw [h1]; rfl)]
    rfl

/-- C8 (witness): the statement at the concrete empty-glyph emoji icon
(default substituted, `icon.emoji` = `📄`) and at a concrete
`"external"` icon (passed through unchanged). -/
theorem C8_witness :
    (jLookup (reqBodyFields (createDatabaseRequest "p" (.arr []) (.obj [])
        (some [("type", .str "emoji"), ("emoji", .str "")]) .null)) "icon"
      = some (.obj (pySetItem [("type", .str "emoji"), ("emoji", .str "")]
          "emoji" (.str "📄")))
    ∧ jLookup (pySetItem [("type", .str "emoji"), ("emoji", .str "")]
        "emoji" (.str "📄")) "emoji" = some (.str "📄"))
    ∧ jLookup (reqBodyFields (createDatabaseRequest "p" (.arr []) (.obj [])
        (some [("type", .str "external")]) .null)) "icon"
      = some (.obj [("type", .str "external")]) := by
  constructor
  · exact (C8_create_database_default_emoji "p" (.arr []) (.obj []) .null
      [("type", .str "emoji"), ("emoji", .str "")]).1
      (List.cons_ne_nil _ _) rfl rfl
  · exact (C8_create_database_default_emoji "p" (.arr []) (.obj []) .null
      [("type", .str "external")]).2
      (List.cons_ne_nil _ _) (Or.inl rfl)

/-- C4 (witness): the amended statement at the concrete unrecognized kind
`"callout"` with one plain run `"x"`. -/
theorem C4_amended_witness :
    blockToMarkdown (.obj [("type", .str "callout"),
        ("callout", .obj [("rich_text",
          .arr [.obj [("text", .obj [("content", .str "x")])]])])])
      = .ok ("x" ++ "\n\n") :=
  C4_amended [("type", .str "callout"),
      ("callout", .obj [("rich_text",
        .arr [.obj [("text", .obj [("content", .str "x")])]])])]
    "callout" (.arr [.obj [("text", .obj [("content", .str "x")])]]) "x"
    rfl (by decide) (by decide) rfl rfl

/-- Projection of a literal pair. -/
theorem snd_pair {α β : Type} (a : α) (b : β) : (a, b).2 = b := rfl

/-- A bound `Except` computation whose continuation only ever succeeds
with a single text message itself only succeeds with a single text
message. -/
theorem okS_of_bindE {α : Type} {X : Except PyExn α}
    {k : α → Except PyExn (List TextContent)}
    (hk : ∀ a m, k a = .ok m → ∃ s, m = [mkText s]) :
    ∀ msgs, (X >>= k) = .ok msgs → ∃ s, msgs = [mkText s] := by
  intro msgs h
  cases X with
  | error e => rw [error_bind] at h; exact Except.noConfusion h
  | ok a => rw [ok_bind] at h; exact hk a msgs h

/-- The `list_databases` branch succeeds only with a single text. -/
theorem okS_listDatabases : ∀ (t : Transport) (msgs : List TextContent),
    (toolListDatabases t).2 = .ok msgs → ∃ s, msgs = [mkText s] := by
  intro t msgs h
  simp only [toolListDatabases, snd_pair] at h
  refine okS_of_bindE ?_ msgs h
  intro r m2 h2
  cases r <;> (rw [pure_eq_ok] at h2; injection h2 with h3; exact ⟨_, h3.symm⟩)

/-- The `query_database` branch succeeds only with a single text. -/
theorem okS_queryDatabase : ∀ (args : Json) (t : Transport) (msgs : List TextContent),
    (toolQueryDatabase args t).2 = .ok msgs → ∃ s, msgs = [mkText s] := by
  intro args t msgs h
  cases args <;> simp only [toolQueryDatabase, snd_pair] at h
  case obj l =>
    split at h
    · exact Except.noConfusion h
    · simp only [snd_pair] at h
      refine okS_of_bindE ?_ msgs h
      intro r m2 h2
      cases r with
      | raw data =>
          refine okS_of_bindE ?_ m2 h2
          intro v m3 h3
          refine okS_of_bindE ?_ m3 h3
          intro rs m4 h4
          rw [pure_eq_ok] at h4
          injection h4 with h5
          exact ⟨_, h5.symm⟩
      | databases dbs =>
          rw [pure_eq_ok] at h2; injection h2 with h3; exact ⟨_, h3.symm⟩
      | page p =>
          rw [pure_eq_ok] at h2; injection h2 with h3; exact ⟨_, h3.symm⟩
      | database d =>
          rw [pure_eq_ok] at h2; injection h2 with h3; exact ⟨_, h3.symm⟩
      | searchRes s =>
          rw [pure_eq_ok] at h2; injection h2 with h3; exact ⟨_, h3.symm⟩
  all_goals exact Except.noConfusion h

/-- The `create_page` branch succeeds only with a single text. -/
theorem okS_createPage : ∀ (args : Json) (t : Transport) (msgs : List TextContent),
    (toolCreatePage args t).2 = .ok msgs → ∃ s, msgs = [mkText s] := by
  intro args t msgs h
  cases args <;> simp only [toolCreatePage, snd_pair] at h
  case obj l =>
    split at h
    · exact Except.noConfusion h
    · simp only [snd_pair] at h
      refine okS_of_bindE ?_ msgs h
      intro r m2 h2
      cases r <;> (rw [pure_eq_ok] at h2; injection h2 with h3; exact ⟨_, h3.symm⟩)
  all_goals exact Except.noConfusion h

/-- The `update_page` branch succeeds only with a single text. -/
theorem okS_updatePage : ∀ (args : Json) (t : Transport) (msgs : List TextContent),
    (toolUpdatePage args t).2 = .ok msgs → ∃ s, msgs = [mkText s] := by
  intro args t msgs h
  cases args <;> simp only [toolUpdatePage, snd_pair] at h
  case obj l =>
    split at h
    · exact Except.noConfusion h
    · simp only [snd_pair] at h
      refine okS_of_bindE ?_ msgs h
      intro r m2 h2
      cases r <;> (rw [pure_eq_ok] at h2; injection h2 with h3; exact ⟨_, h3.symm⟩)
  all_goals exact Except.noConfusion h

/-- The `get_page` branch succeeds only with a single text. -/
theorem okS_getPage : ∀ (args : Json) (t : Transport) (msgs : List TextContent),
    (toolGetPage args t).2 = .ok msgs → ∃ s, msgs = [mkText s] := by
  intro args t msgs h
  cases args <;> simp only [toolGetPage, snd_pair] at h
  case obj l =>
    split at h
    · exact Except.noConfusion h
    · simp only [snd_pair] at h
      split at h <;> (injection h with h2; exact ⟨_, h2.symm⟩)
  all_goals exact Except.noConfusion h

/-- The `get_page_content` branch succeeds only with a single text. -/
theorem okS_getPageContent : ∀ (args : Json) (t : Transport) (msgs : List TextContent),
    (toolGetPageContent args t).2 = .ok msgs → ∃ s, msgs = [mkText s] := by
  intro args t msgs h
  cases args <;> simp only [toolGetPageContent, snd_pair] at h
  case obj l =>
    split at h
    · exact Except.noConfusion h
    · simp only [snd_pair] at h
      split at h <;> (injection h with h2; exact ⟨_, h2.symm⟩)
  all_goals exact Except.noConfusion h

/-- The `append_page_content` branch succeeds only with a single text. -/
theorem okS_appendPageContent : ∀ (args : Json) (t : Transport) (msgs : List TextContent),
    (toolAppendPageContent args t).2 = .ok msgs → ∃ s, msgs = [mkText s] := by
  intro args t msgs h
  cases args <;> simp only [toolAppendPageContent, snd_pair] at h
  case obj l =>
    split at h
    · exact Except.noConfusion h
    · split at h
      · exact Except.noConfusion h
      · split at h
        · exact Except.noConfusion h
        · split at h
          · simp only [snd_pair] at h
            injection h with h2; exact ⟨_, h2.symm⟩
          · simp only [snd_pair] at h
            split at h <;> (injection h with h2; exact ⟨_, h2.symm⟩)
  all_goals exact Except.noConfusion h

/-- The `search` branch succeeds only with a single text. -/
theorem okS_search : ∀ (args : Json) (t : Transport) (msgs : List TextContent),
    (toolSearch args t).2 = .ok msgs → ∃ s, msgs = [mkText s] := by
  intro args t msgs h
  cases args <;> simp only [toolSearch, snd_pair] at h
  case obj l =>
    refine okS_of_bindE ?_ msgs h
    intro r m2 h2
    cases r <;> (rw [pure_eq_ok] at h2; injection h2 with h3; exact ⟨_, h3.symm⟩)
  all_goals exact Except.noConfusion h

/-- The `create_database` branch succeeds only with a single text. -/
theorem okS_createDatabase : ∀ (args : Json) (t : Transport) (msgs : List TextContent),
    (toolCreateDatabase args t).2 = .ok msgs → ∃ s, msgs = [mkText s] := by
  intro args t msgs h
  cases args <;> simp only [toolCreateDatabase, snd_pair] at h
  case obj l =>
    split at h
    · exact Except.noConfusion h
    · split at h
      · simp only [snd_pair] at h
        injection h with h2; exact ⟨_, h2.symm⟩
      · simp only [snd_pair] at h
        split at h <;> (injection h with h2; exact ⟨_, h2.symm⟩)
  all_goals exact Except.noConfusion h

/-- The `update_database` branch succeeds only with a single text. -/
theorem okS_updateDatabase : ∀ (args : Json) (t : Transport) (msgs : List TextContent),
    (toolUpdateDatabase args t).2 = .ok msgs → ∃ s, msgs = [mkText s] := by
  intro args t msgs h
  cases args <;> simp only [toolUpdateDatabase, snd_pair] at h
  case obj l =>
    split at h
    · exact Except.noConfusion h
    · simp only [snd_pair] at h
      refine okS_of_bindE ?_ msgs h
      intro r m2 h2
      cases r <;> (rw [pure_eq_ok] at h2; injection h2 with h3; exact ⟨_, h3.symm⟩)
  all_goals exact Except.noConfusion h

/-- The `get_block` branch succeeds only with a single text. -/
theorem okS_getBlock : ∀ (args : Json) (t : Transport) (msgs : List TextContent),
    (toolGetBlock args t).2 = .ok msgs → ∃ s, msgs = [mkText s] := by
  intro args t msgs h
  cases args <;> simp only [toolGetBlock, snd_pair] at h
  case obj l =>
    split at h
    · exact Except.noConfusion h
    · simp only [snd_pair] at h
      split at h <;> (injection h with h2; exact ⟨_, h2.symm⟩)
  all_goals exact Except.noConfusion h

/-- The `update_block` branch succeeds only with a single text. -/
theorem okS_updateBlock : ∀ (args : Json) (t : Transport) (msgs : List TextContent),
    (toolUpdateBlock args t).2 = .ok msgs → ∃ s, msgs = [mkText s] := by
  intro args t msgs h
  cases args <;> simp only [toolUpdateBlock, snd_pair] at h
  case obj l =>
    split at h
    · exact Except.noConfusion h
    · simp only [snd_pair] at h
      split at h <;> (injection h with h2; exact ⟨_, h2.symm⟩)
  all_goals exact Except.noConfusion h

end NotionSpec

namespace NotionSpec

/-- Whatever the tool name and argument bag, a successful `call_tool`
body yields exactly one text message. -/
theorem callToolBody_ok_singleton : ∀ (name : String) (args : Json)
    (t : Transport) (msgs : List TextContent),
    (callToolBody name args t).2 = .ok msgs → ∃ s, msgs = [mkText s] := by
  intro name args t msgs h
  unfold callToolBody at h
  by_cases hc0 : name = "list_databases"
  · rw [if_pos hc0] at h
    exact okS_listDatabases t msgs h
  · rw [if_neg hc0] at h
    by_cases hc1 : name = "query_database"
    · rw [if_pos hc1] at h
      exact okS_queryDatabase args t msgs h
    · rw [if_neg hc1] at h
      by_cases hc2 : name = "create_page"
      · rw [if_pos hc2] at h
        exact okS_createPage args t msgs h
      · rw [if_neg hc2] at h
        by_cases hc3 : name = "update_page"
        · rw [if_pos hc3] at h
          exact okS_updatePage args t msgs h
        · rw [if_neg hc3] at h
          by_cases hc4 : name = "get_page"
          · rw [if_pos hc4] at h
            exact okS_getPage args t msgs h
          · rw [if_neg hc4] at h
            by_cases hc5 : name = "get_page_content"
            · rw [if_pos hc5] at h
              exact okS_getPageContent args t msgs h
            · rw [if_neg hc5] at h
              by_cases hc6 : name = "append_page_content"
              · rw [if_pos hc6] at h
                exact okS_appendPageContent args t msgs h
              · rw [if_neg hc6] at h
                by_cases hc7 : name = "search"
                · rw [if_pos hc7] at h
                  exact okS_search args t msgs h
                · rw [if_neg hc7] at h
                  by_cases hc8 : name = "create_database"
                  · rw [if_pos hc8] at h
                    exact okS_createDatabase args t msgs h
                  · rw [if_neg hc8] at h
                    by_cases hc9 : name = "update_database"
                    · rw [if_pos hc9] at h
                      exact okS_updateDatabase args t msgs h
                    · rw [if_neg hc9] at h
                      by_cases hc10 : name = "get_block"
                      · rw [if_pos hc10] at h
                        exact okS_getBlock args t msgs h
                      · rw [if_neg hc10] at h
                        by_cases hc11 : name = "update_block"
                        · rw [if_pos hc11] at h
                          exact okS_updateBlock args t msgs h
                        · rw [if_neg hc11] at h
                          exact Except.noConfusion h

/-- C9: for every operation name, argument bag and transport behavior,
`call_tool` returns exactly one text content — every failure (validation,
transport, remote, or decode) is converted to a returned `"Error: …"`
text by the outer handler, never propagated to the caller. -/
theorem C9_call_tool_always_returns_text : ∀ (name : String) (args : Json) (t : Transport),
    ∃ s, (callTool name args t).2 = [mkText s] := by
  intro name args t
  unfold callTool
  rcases hb : callToolBody name args t with ⟨reqs, res⟩
  cases res with
  | ok msgs =>
      obtain ⟨s, hs⟩ := callToolBody_ok_singleton name args t msgs (by rw [hb])
      exact ⟨s, hs⟩
  | error e => exact ⟨"Error: " ++ pyExnStr e, rfl⟩


/-- C10: an `append_page_content` call whose children list has more than
100 elements fails with the 100-block validation `ValueError` before any
client call — the request trace is empty, no HTTP request is attempted —
and the failure comes back as the corresponding error text message. -/
theorem C10_append_cap_validated_before_client : ∀ (bid : Json)
    (blocks : List Json) (t : Transport),
    pyTruthy bid = true → 100 < blocks.length →
    callTool "append_page_content"
      (.obj [("block_id", bid), ("children", .arr blocks)]) t
      = ([], [mkText
          "Error: Maximum of 100 blocks can be appended in a single request"]) := by
  intro bid blocks t hb hlen
  cases blocks with
  | nil => exact absurd hlen (by decide)
  | cons x xs =>
      unfold callTool
      rw [show callToolBody "append_page_content"
          (.obj [("block_id", bid), ("children", .arr (x :: xs))]) t
          = toolAppendPageContent
            (.obj [("block_id", bid), ("children", .arr (x :: xs))]) t from rfl]
      simp only [toolAppendPageContent]
      rw [show aGet [("block_id", bid), ("children", Json.arr (x :: xs))]
            "block_id" = bid from rfl,
          show aGet [("block_id", bid), ("children", Json.arr (x :: xs))]
            "children" = Json.arr (x :: xs) from rfl,
          show aGet [("block_id", bid), ("children", Json.arr (x :: xs))]
            "after" = Json.null from rfl]
      rw [if_neg (show ¬ ((!pyTruthy bid
          || !pyTruthy (Json.arr (x :: xs))) = true) by
        rw [hb]; exact Bool.false_ne_true)]
      rw [show pyLen (Json.arr (x :: xs))
          = Except.ok ((x :: xs).length : Int) from rfl]
      simp only []
      rw [if_pos (show (100 : Int) < ((x :: xs).length : Int) by
        exact_mod_cast hlen)]
      rfl

/-- C10 (witness): a 101-block append against a live transport is refused
with the cap message and an empty request trace. -/
theorem C10_witness :
    callTool "append_page_content"
      (.obj [("block_id", .str "b"),
        ("children", .arr (List.replicate 101 (.obj [])))])
      (fun _ => .ok { status := 200, body := .null })
      = ([], [mkText
          "Error: Maximum of 100 blocks can be appended in a single request"]) :=
  C10_append_cap_validated_before_client (.str "b")
    (List.replicate 101 (.obj [])) (fun _ => .ok { status := 200, body := .null })
    (by decide) (by decide)

end NotionSpec
